import Mathlib

/-!
Shallow embedding of `src/audio_unit/render_callback.rs` (coreaudio-rs).

The file models the data flowing through the render-callback boundary:
raw engine buffer descriptors, the three `Buffer` variants and their
`does_stream_format_match` / `from_input_proc_args` implementations, the
`ActionFlags` bit set produced by the `bitflags!` macro invocation, the
channel iterators over non-interleaved buffers, and the
`set_render_callback` / `free_render_callback` registration protocol
(modelled as a pure state transformer emitting an event trace, with the
external engine's responses passed in as parameters).

Machine integers (`u32`, byte sizes, pointers) are modelled as `Nat`;
panics (`assert!`) and out-of-bounds raw accesses are modelled as `none`;
fallible engine calls are `Except`.
-/

namespace RenderCallback

/-- Mirrors the C binding `AudioBuffer`: a channel count, a byte size and a
raw data pointer (the pointer is modelled as an abstract address). -/
structure AudioBuffer where
  mNumberChannels : Nat
  mDataByteSize : Nat
  mData : Nat
deriving Repr, DecidableEq

/-- Mirrors the C binding `AudioBufferList`: a declared buffer count and the
descriptor array (`mBuffers`). In the C layout `mBuffers` is a
variable-length array of which `mNumberBuffers` entries are valid. -/
structure AudioBufferList where
  mNumberBuffers : Nat
  mBuffers : List AudioBuffer
deriving Repr, DecidableEq

/-- Modelled from the spec: `StreamFormat` (defined outside this source
file) "describes sample encoding — interleaved vs non-interleaved, element
width, numeric representation, byte order". Only its `flags` word is
consumed by the code under study, so the model keeps just that word. -/
structure StreamFormat where
  flags : Nat
deriving Repr, DecidableEq

/-- Modelled from the spec: the distinguished linear-PCM flag bit
`linear_pcm_flags::IS_NON_INTERLEAVED` (Apple's
`kAudioFormatFlagIsNonInterleaved`, bit 5). Its definition lives outside
this source file; only its identity as a single flag bit matters here. -/
def IS_NON_INTERLEAVED : Nat := 32

/-- bitflags `contains`: `(self.bits & other.bits) == other.bits`. -/
def flagsContains (flags mask : Nat) : Bool := flags &&& mask == mask

/-- The result of `slice::from_raw_parts(_mut)`: a typed view over foreign
memory, modelled as its base address and element count. -/
structure Slice where
  ptr : Nat
  len : Nat
deriving Repr, DecidableEq

/-- `impl Buffer for Custom`, `does_stream_format_match`: always `true`. -/
def customDoesStreamFormatMatch (_format : StreamFormat) : Bool := true

/-- `impl Buffer for Custom`, `from_input_proc_args`: wraps the raw
`*mut AudioBufferList` opaquely (the model keeps the list value). -/
def customFromInputProcArgs (_num_frames : Nat) (io_data : AudioBufferList) :
    AudioBufferList := io_data

/-- `impl Buffer for LinearPcm<&mut [S]>`, `does_stream_format_match`:
`!format.flags.contains(IS_NON_INTERLEAVED) && S::sample_format().does_match_flags(format.flags)`.
The sample-format matcher for `S` lives outside this source file, so it is
taken as an abstract predicate `m` on the flags word. -/
def interleavedDoesStreamFormatMatch (m : Nat → Bool) (format : StreamFormat) : Bool :=
  !(flagsContains format.flags IS_NON_INTERLEAVED) && m format.flags

/-- `impl Buffer for LinearPcm<NonInterleaved<S>>`, `does_stream_format_match`:
`format.flags.contains(IS_NON_INTERLEAVED) && S::sample_format().does_match_flags(format.flags)`. -/
def nonInterleavedDoesStreamFormatMatch (m : Nat → Bool) (format : StreamFormat) : Bool :=
  flagsContains format.flags IS_NON_INTERLEAVED && m format.flags

/-- `impl Buffer for LinearPcm<&mut [S]>`, `from_input_proc_args`.
`sizeS` stands for `size_of::<S>()`. Reads `(*io_data).mBuffers[0]`,
computes `buffer_len = frames * mNumberChannels` and
`expected_size = size_of::<S>() * buffer_len`, asserts
`mDataByteSize == expected_size` (the `assert!` panic is modelled as
`none`, as is an absent first descriptor), and produces the flat slice
`from_raw_parts_mut(mData as *mut S, buffer_len)`. -/
def interleavedFromInputProcArgs (sizeS frames : Nat) (io_data : AudioBufferList) :
    Option Slice :=
  match io_data.mBuffers.head? with
  | none => none
  | some b =>
    let buffer_len := frames * b.mNumberChannels
    let expected_size := sizeS * buffer_len
    if b.mDataByteSize = expected_size then
      some { ptr := b.mData, len := buffer_len }
    else
      none

/-- `struct NonInterleaved<'a, S>`: the borrowed descriptor array plus the
frame count for the render call. -/
structure NonInterleaved where
  buffers : List AudioBuffer
  frames : Nat
deriving Repr, DecidableEq

/-- `struct Channels<'a, S>`: the read-only channel iterator's state — the
remaining descriptor cursor and the frame count. -/
structure Channels where
  buffers : List AudioBuffer
  frames : Nat
deriving Repr, DecidableEq

/-- `struct ChannelsMut<'a, S>`: the mutable channel iterator's state. -/
structure ChannelsMut where
  buffers : List AudioBuffer
  frames : Nat
deriving Repr, DecidableEq

/-- `impl Iterator for Channels`, `next`: takes the next descriptor and
yields `from_raw_parts(mData as *mut S, mNumberChannels * frames)`. -/
def Channels.next : Channels → Option (Slice × Channels)
  | ⟨[], _⟩ => none
  | ⟨b :: rest, f⟩ =>
    some ({ ptr := b.mData, len := b.mNumberChannels * f }, ⟨rest, f⟩)

/-- `impl Iterator for ChannelsMut`, `next`: identical shape, yielding a
mutable slice. -/
def ChannelsMut.next : ChannelsMut → Option (Slice × ChannelsMut)
  | ⟨[], _⟩ => none
  | ⟨b :: rest, f⟩ =>
    some ({ ptr := b.mData, len := b.mNumberChannels * f }, ⟨rest, f⟩)

/-- The finite sequence an iterator starting from a given descriptor list
yields when driven to exhaustion (one `next` per descriptor). -/
def channelsYield : List AudioBuffer → Nat → List Slice
  | [], _ => []
  | b :: rest, f => { ptr := b.mData, len := b.mNumberChannels * f } :: channelsYield rest f

/-- All elements a `Channels` iterator yields, in order. -/
def Channels.toList (c : Channels) : List Slice := channelsYield c.buffers c.frames

/-- All elements a `ChannelsMut` iterator yields, in order. -/
def ChannelsMut.toList (c : ChannelsMut) : List Slice := channelsYield c.buffers c.frames

/-- `NonInterleaved::channels`: a fresh read-only iterator over the full
descriptor array (`self.buffers.iter()`). -/
def NonInterleaved.channels (v : NonInterleaved) : Channels :=
  { buffers := v.buffers, frames := v.frames }

/-- `NonInterleaved::channels_mut`: a fresh mutable iterator over the full
descriptor array (`self.buffers.iter_mut()`). -/
def NonInterleaved.channelsMut (v : NonInterleaved) : ChannelsMut :=
  { buffers := v.buffers, frames := v.frames }

/-- `impl Buffer for LinearPcm<NonInterleaved<S>>`, `from_input_proc_args`:
wraps `from_raw_parts_mut(mBuffers.as_mut_ptr(), mNumberBuffers)` — the
first `mNumberBuffers` descriptors — plus the frame count, with no per-
descriptor byte-size validation. -/
def nonInterleavedFromInputProcArgs (frames : Nat) (io_data : AudioBufferList) :
    NonInterleaved :=
  { buffers := io_data.mBuffers.take io_data.mNumberBuffers, frames := frames }

namespace action_flags

/-- Modelled from the spec: `au::kAudioUnitRenderAction_PreRender` (bit 2),
a binding constant defined outside this source file. -/
def PRE_RENDER : Nat := 4

/-- Modelled from the spec: `au::kAudioUnitRenderAction_PostRender` (bit 3). -/
def POST_RENDER : Nat := 8

/-- Modelled from the spec: `au::kAudioUnitRenderAction_OutputIsSilence` (bit 4). -/
def OUTPUT_IS_SILENCE : Nat := 16

/-- Modelled from the spec: `au::kAudioOfflineUnitRenderAction_Preflight` (bit 5). -/
def OFFLINE_PREFLIGHT : Nat := 32

/-- Modelled from the spec: `au::kAudioOfflineUnitRenderAction_Render` (bit 6). -/
def OFFLINE_RENDER : Nat := 64

/-- Modelled from the spec: `au::kAudioOfflineUnitRenderAction_Complete` (bit 7). -/
def OFFLINE_COMPLETE : Nat := 128

/-- Modelled from the spec: `au::kAudioUnitRenderAction_PostRenderError` (bit 8). -/
def POST_RENDER_ERROR : Nat := 256

/-- Modelled from the spec: `au::kAudioUnitRenderAction_DoNotCheckRenderArgs` (bit 9). -/
def DO_NOT_CHECK_RENDER_ARGS : Nat := 512

/-- `ActionFlags::all().bits()`: the union of the eight named flag bits
declared in the `bitflags!` invocation. -/
def ALL : Nat :=
  PRE_RENDER ||| POST_RENDER ||| OUTPUT_IS_SILENCE ||| OFFLINE_PREFLIGHT |||
  OFFLINE_RENDER ||| OFFLINE_COMPLETE ||| POST_RENDER_ERROR ||| DO_NOT_CHECK_RENDER_ARGS

/-- The all-ones `u32` word. -/
def U32_MASK : Nat := 4294967295

/-- `!ActionFlags::all().bits()` as a `u32`: the bitwise complement of
`ALL` within 32 bits. -/
def NOT_ALL : Nat := U32_MASK ^^^ ALL

/-- `ActionFlags::from_bits` as expanded from the `bitflags!` macro:
`if (bits & !all) != 0 { None } else { Some(flags with those bits) }`.
A flag set is represented by its `u32` bits word (`.bits()` is the
identity under this representation, `empty()` is `0`). -/
def fromBits (w : Nat) : Option Nat :=
  if w &&& NOT_ALL != 0 then none else some w

end action_flags

/-- The flag-parsing step of the `input_proc_fn` closure inside
`set_render_callback`:
`ActionFlags::from_bits(*io_action_flags).unwrap_or_else(|| ActionFlags::empty())`. -/
def actionFlagsParse (w : Nat) : Nat := (action_flags.fromBits w).getD 0

/-- The crate `Error` values reachable from this source file: the format
mismatch returned by `set_render_callback`, the `Unspecified` error used
by the trampoline, and an abstract carrier for errors the external engine
calls (`stream_format` / `set_property`) return. -/
inductive Error where
  | RenderCallbackBufferFormatDoesNotMatchAudioUnitStreamFormat
  | Unspecified
  | Engine (code : Nat)
deriving Repr, DecidableEq

/-- `AudioUnit`'s state relevant to callback registration: `maybe_callback`,
the stored raw pointer to the current `InputProcFnWrapper` box. A box is
identified by an abstract address. -/
structure AudioUnitState where
  maybe_callback : Option Nat
deriving Repr, DecidableEq

/-- Observable resource events emitted by the registration code, in program
order: a callback box is heap-allocated and released to a raw pointer
(`Box::new` + `Box::into_raw`), the engine set-property call installing a
context is attempted, a box is reclaimed (`Box::from_raw` dropping it). -/
inductive Event where
  | createdBox (id : Nat)
  | setProperty (ctx : Nat) (ok : Bool)
  | droppedBox (id : Nat)
deriving Repr, DecidableEq

/-- `AudioUnit::free_render_callback`: `self.maybe_callback.take()`; if a
pointer was stored, reconstruct the box and drop it; otherwise do nothing. -/
def free_render_callback (st : AudioUnitState) : AudioUnitState × List Event :=
  match st.maybe_callback with
  | some cb => ({ maybe_callback := none }, [Event.droppedBox cb])
  | none => (st, [])

/-- Outcome of one `set_render_callback` call: the returned `Result`, the
state of `maybe_callback` afterwards, and the emitted resource events in
program order. -/
structure CallOutcome where
  result : Except Error Unit
  state : AudioUnitState
  events : List Event
deriving Repr

/-- `AudioUnit::set_render_callback`, with the external engine's responses
passed in: `stream_format_result` is what `self.stream_format()` returns,
`does_match` is `B::does_stream_format_match`, `newBox` the address the
fresh `InputProcFnWrapper` box is allocated at, and `set_property_result`
what the engine's `set_property(kAudioUnitProperty_SetRenderCallback, ...)`
call returns. Program order: query format (`try!`), check the match,
box the callback and `Box::into_raw` it, call `set_property` (`try!`;
on error the raw pointer goes out of scope without reclamation), then
`free_render_callback()` on the previous registration and store the new
pointer. -/
def set_render_callback (st : AudioUnitState)
    (stream_format_result : Except Error StreamFormat)
    (does_match : StreamFormat → Bool)
    (newBox : Nat)
    (set_property_result : Except Error Unit) : CallOutcome :=
  match stream_format_result with
  | .error e => { result := .error e, state := st, events := [] }
  | .ok fmt =>
    if !(does_match fmt) then
      { result := .error .RenderCallbackBufferFormatDoesNotMatchAudioUnitStreamFormat,
        state := st, events := [] }
    else
      match set_property_result with
      | .error e =>
        { result := .error e, state := st,
          events := [Event.createdBox newBox, Event.setProperty newBox false] }
      | .ok _ =>
        { result := .ok (), state := { maybe_callback := some newBox },
          events := [Event.createdBox newBox, Event.setProperty newBox true] ++
            (free_render_callback st).2 }

/-- The result translation at the end of the `input_proc_fn` closure:
`match f(args) { Ok(()) => 0 as OSStatus, Err(()) => Error::Unspecified.to_os_status() }`.
`unspecified_status` stands for `Error::Unspecified.to_os_status()`, the
fixed status code produced outside this source file; `f` is the user
callback and `args` the assembled `Args` value. -/
def inputProcReturn (unspecified_status : Int) {α : Type} (f : α → Except Unit Unit)
    (args : α) : Int :=
  match f args with
  | .ok _ => 0
  | .error _ => unspecified_status

/-- Length of the yielded channel sequence equals the descriptor count. -/
lemma channelsYield_length (l : List AudioBuffer) (f : Nat) :
    (channelsYield l f).length = l.length := by
  induction l with
  | nil => rfl
  | cons b rest ih => simp [channelsYield, ih]

/-- Element-wise description of the yielded channel sequence. -/
lemma channelsYield_getElem? (l : List AudioBuffer) (f : Nat) (i : Nat) :
    (channelsYield l f)[i]? =
      (l[i]?).map (fun b => ({ ptr := b.mData, len := b.mNumberChannels * f } : Slice)) := by
  induction l generalizing i with
  | nil => simp [channelsYield]
  | cons b rest ih =>
    cases i with
    | zero => simp [channelsYield]
    | succ n => simpa [channelsYield] using ih n

/-- A bit set in `ALL` is clear in its 32-bit complement `NOT_ALL`. -/
lemma testBit_not_all_of_testBit_all (i : Nat)
    (h : Nat.testBit action_flags.ALL i = true) :
    Nat.testBit action_flags.NOT_ALL i = false := by
  have hlt : i < 10 := by
    by_contra hge
    push_neg at hge
    have hpow : action_flags.ALL < 2 ^ i :=
      lt_of_lt_of_le (by decide) (Nat.pow_le_pow_right (by decide) hge)
    rw [Nat.testBit_lt_two_pow hpow] at h
    cases h
  interval_cases i <;> revert h <;> decide

/-- Below bit 32, a bit clear in `NOT_ALL` is set in `ALL`. -/
lemma testBit_all_of_not_testBit_not_all (i : Nat) (hi : i < 32)
    (h : Nat.testBit action_flags.NOT_ALL i = false) :
    Nat.testBit action_flags.ALL i = true := by
  interval_cases i <;> revert h <;> decide

/-- For a `u32` word, "only recognized bits" (`w &&& ALL = w`) is the same
as "no unrecognized bit" (`w &&& NOT_ALL = 0`), the test `from_bits` runs. -/
lemma and_all_iff_and_not_all (w : Nat) (hw : w < 4294967296) :
    w &&& action_flags.ALL = w ↔ w &&& action_flags.NOT_ALL = 0 := by
  constructor
  · intro h
    apply Nat.eq_of_testBit_eq
    intro i
    rw [Nat.testBit_and, Nat.zero_testBit]
    cases hwi : w.testBit i with
    | false => simp
    | true =>
      have hAll : Nat.testBit action_flags.ALL i = true := by
        have hcong := congrArg (fun t => Nat.testBit t i) h
        simp only [Nat.testBit_and] at hcong
        rw [hwi] at hcong
        simpa using hcong
      rw [testBit_not_all_of_testBit_all i hAll]
      simp
  · intro h
    apply Nat.eq_of_testBit_eq
    intro i
    rw [Nat.testBit_and]
    cases hwi : w.testBit i with
    | false => simp
    | true =>
      have hi : i < 32 := by
        by_contra hge
        push_neg at hge
        have hpow : w < 2 ^ i := by
          calc w < 4294967296 := hw
            _ = 2 ^ 32 := by decide
            _ ≤ 2 ^ i := Nat.pow_le_pow_right (by decide) hge
        rw [Nat.testBit_lt_two_pow hpow] at hwi
        cases hwi
      have hnot : Nat.testBit action_flags.NOT_ALL i = false := by
        have hcong := congrArg (fun t => Nat.testBit t i) h
        simp only [Nat.testBit_and, Nat.zero_testBit] at hcong
        rw [hwi] at hcong
        simpa using hcong
      rw [testBit_all_of_not_testBit_not_all i hi hnot]
      simp

/-- C1: for every frame count `F`, sample size `size_of(S)` and render-call
region whose first descriptor reports channel count `C`, if the descriptor's
byte size is exactly `F * C * size_of(S)` the interleaved construction
yields a flat slice of length `F * C` over that descriptor's data pointer;
for any other byte size the construction is a fatal assertion failure
(modelled as `none`), not a value returned to the callback. -/
theorem C1_interleaved_construction (sizeS frames : Nat) (io_data : AudioBufferList)
    (b : AudioBuffer) (hb : io_data.mBuffers.head? = some b) :
    (b.mDataByteSize = frames * b.mNumberChannels * sizeS →
      interleavedFromInputProcArgs sizeS frames io_data =
        some { ptr := b.mData, len := frames * b.mNumberChannels }) ∧
    (b.mDataByteSize ≠ frames * b.mNumberChannels * sizeS →
      interleavedFromInputProcArgs sizeS frames io_data = none) := by
  cases hl : io_data.mBuffers with
  | nil => rw [hl] at hb; cases hb
  | cons hd tl =>
    rw [hl, List.head?_cons] at hb
    injection hb with hb
    subst hb
    refine ⟨fun h => ?_, fun h => ?_⟩
    · have hc : hd.mDataByteSize = sizeS * (frames * hd.mNumberChannels) := by rw [h]; ring
      simp [interleavedFromInputProcArgs, hl, hc]
    · have hc : ¬hd.mDataByteSize = sizeS * (frames * hd.mNumberChannels) := by
        intro hx
        exact h (by rw [hx]; ring)
      simp [interleavedFromInputProcArgs, hl, hc]

/-- Witness for C1: the spec's example scenario — 512 frames, 2 channels,
4-byte samples, a first descriptor of 4096 bytes — yields a 1024-element
slice over the descriptor's pointer. -/
theorem C1_interleaved_construction_witness :
    interleavedFromInputProcArgs 4 512 ⟨1, [⟨2, 4096, 1000⟩]⟩ =
      some { ptr := 1000, len := 1024 } :=
  (C1_interleaved_construction 4 512 ⟨1, [⟨2, 4096, 1000⟩]⟩ ⟨2, 4096, 1000⟩ rfl).1 (by decide)

/-- C4: for every stream format and every sample-format matcher `m` for a
sample type `S`: `Custom` matches all formats; the interleaved variant
matches iff the non-interleaved flag is absent and `m` accepts the flags;
the non-interleaved variant matches iff the flag is present and `m`
accepts; hence the interleaved and non-interleaved predicates are never
both true on the same format and `S`. -/
theorem C4_does_stream_format_match (m : Nat → Bool) (format : StreamFormat) :
    customDoesStreamFormatMatch format = true ∧
    (interleavedDoesStreamFormatMatch m format = true ↔
      (flagsContains format.flags IS_NON_INTERLEAVED = false ∧ m format.flags = true)) ∧
    (nonInterleavedDoesStreamFormatMatch m format = true ↔
      (flagsContains format.flags IS_NON_INTERLEAVED = true ∧ m format.flags = true)) ∧
    ¬(interleavedDoesStreamFormatMatch m format = true ∧
      nonInterleavedDoesStreamFormatMatch m format = true) := by
  unfold customDoesStreamFormatMatch interleavedDoesStreamFormatMatch
    nonInterleavedDoesStreamFormatMatch
  cases h : flagsContains format.flags IS_NON_INTERLEAVED <;>
    cases hm : m format.flags <;> simp

/-- C7: the trampoline's typed adapter returns native status `0` when the
user callback succeeds and the single fixed unspecified-error status when
it fails, carrying no further detail from the failure value. -/
theorem C7_trampoline_status_translation {α : Type} (unspecified_status : Int)
    (f : α → Except Unit Unit) (args : α) :
    (f args = .ok () → inputProcReturn unspecified_status f args = 0) ∧
    (f args = .error () → inputProcReturn unspecified_status f args = unspecified_status) := by
  unfold inputProcReturn
  constructor <;> intro h <;> rw [h]

/-- Witness for C7: a concrete callback succeeding on `true` and failing on
`false`, with the unspecified status instantiated to 42. -/
theorem C7_trampoline_status_translation_witness :
    inputProcReturn 42 (fun b : Bool => if b then Except.ok () else Except.error ()) true = 0 ∧
    inputProcReturn 42 (fun b : Bool => if b then Except.ok () else Except.error ()) false = 42 :=
  ⟨(C7_trampoline_status_translation 42
      (fun b : Bool => if b then Except.ok () else Except.error ()) true).1 rfl,
   (C7_trampoline_status_translation 42
      (fun b : Bool => if b then Except.ok () else Except.error ()) false).2 rfl⟩

/-- C2 counterexample: the claim "the resulting flag set contains exactly
the recognized named bits present in the word" fails at the word 5 =
`PRE_RENDER` plus the unrecognized bit 0: the recognized bits present are
exactly `PRE_RENDER`, but the parse yields the empty set. -/
theorem C2_counterexample :
    actionFlagsParse 5 = 0 ∧
    5 &&& action_flags.ALL = action_flags.PRE_RENDER ∧
    action_flags.PRE_RENDER ≠ 0 := by decide

/-- C2 (amended): parsing never fails (it always yields a flag word); a
word consisting only of recognized named bits parses to exactly those
bits; but a word containing any unrecognized bit parses to the empty set —
`from_bits` returns `None` and `unwrap_or_else` substitutes `empty()` —
so in that case the recognized bits present in the word are dropped too. -/
theorem C2_parse_amended (w : Nat) (hw : w < 4294967296) :
    (w &&& action_flags.ALL = w → actionFlagsParse w = w) ∧
    (w &&& action_flags.ALL ≠ w → actionFlagsParse w = 0) := by
  constructor
  · intro h
    have h0 : w &&& action_flags.NOT_ALL = 0 := (and_all_iff_and_not_all w hw).mp h
    simp [actionFlagsParse, action_flags.fromBits, h0]
  · intro h
    have h0 : w &&& action_flags.NOT_ALL ≠ 0 := fun hc =>
      h ((and_all_iff_and_not_all w hw).mpr hc)
    simp [actionFlagsParse, action_flags.fromBits, h0]

/-- Witness for the amended C2: the pure word 4 (`PRE_RENDER`) parses to
itself, and the mixed word 5 parses to the empty set. -/
theorem C2_parse_amended_witness :
    actionFlagsParse 4 = 4 ∧ actionFlagsParse 5 = 0 :=
  ⟨(C2_parse_amended 4 (by decide)).1 (by decide),
   (C2_parse_amended 5 (by decide)).2 (by decide)⟩

/-- C10: parsing and serialization are mutually inverse on recognized
words — for every `u32` word composed only of the named flag bits,
`from_bits` succeeds and recovers exactly that word (sets are represented
by their bits word, so `bits` is the identity and re-serializing the
parsed set yields the same word). -/
theorem C10_from_bits_roundtrip (w : Nat) (hw : w < 4294967296)
    (h : w &&& action_flags.ALL = w) :
    action_flags.fromBits w = some w := by
  have h0 : w &&& action_flags.NOT_ALL = 0 := (and_all_iff_and_not_all w hw).mp h
  simp [action_flags.fromBits, h0]

/-- Witness for C10: the word 1020 holding every named flag round-trips. -/
theorem C10_from_bits_roundtrip_witness :
    action_flags.fromBits 1020 = some 1020 :=
  C10_from_bits_roundtrip 1020 (by decide) (by decide)

/-- C5: iterating `channels()` (and `channels_mut()`) over a
non-interleaved view with `C` descriptors and frame count `F` yields
exactly `C` slices, the `i`-th over descriptor `i`'s data pointer with
length `(channel count of descriptor i) * F`, in descriptor order; and a
fresh call to `channels()` starts again from the full descriptor array, so
a second iteration yields the same `C` elements even though each iterator
is consumed single-pass. -/
theorem C5_channels_iteration (v : NonInterleaved) :
    v.channels.toList.length = v.buffers.length ∧
    (∀ i : Nat, v.channels.toList[i]? =
      (v.buffers[i]?).map
        (fun b => ({ ptr := b.mData, len := b.mNumberChannels * v.frames } : Slice))) ∧
    v.channelsMut.toList.length = v.buffers.length ∧
    (∀ i : Nat, v.channelsMut.toList[i]? =
      (v.buffers[i]?).map
        (fun b => ({ ptr := b.mData, len := b.mNumberChannels * v.frames } : Slice))) ∧
    v.channels.buffers = v.buffers ∧
    v.channelsMut.buffers = v.buffers :=
  ⟨channelsYield_length v.buffers v.frames,
   fun i => channelsYield_getElem? v.buffers v.frames i,
   channelsYield_length v.buffers v.frames,
   fun i => channelsYield_getElem? v.buffers v.frames i,
   rfl, rfl⟩

/-- C3 (code evaluated at the failing input): with a prior registration at
box 7, a matching format and an engine set-property failure, the error is
returned to the caller and the prior registration is untouched — but the
newly created callback box 9 is never dropped (no `droppedBox 9` event):
the raw pointer from `Box::into_raw` goes out of scope on the `try!` early
return without being reconstructed, so the box leaks instead of being
reclaimed as the claim states. -/
theorem C3_set_property_failure_leaks_new_box :
    (set_render_callback ⟨some 7⟩ (.ok ⟨0⟩) (fun _ => true) 9
        (.error (.Engine 5))).result = .error (.Engine 5) ∧
    (set_render_callback ⟨some 7⟩ (.ok ⟨0⟩) (fun _ => true) 9
        (.error (.Engine 5))).state = ⟨some 7⟩ ∧
    Event.createdBox 9 ∈ (set_render_callback ⟨some 7⟩ (.ok ⟨0⟩) (fun _ => true) 9
        (.error (.Engine 5))).events ∧
    Event.droppedBox 9 ∉ (set_render_callback ⟨some 7⟩ (.ok ⟨0⟩) (fun _ => true) 9
        (.error (.Engine 5))).events :=
  ⟨rfl, rfl, by decide, by decide⟩

/-- C6: when `set_render_callback` succeeds on an instance already holding
a registration, the previous box is released exactly once, strictly after
the new context has been installed (`setProperty new true` precedes
`droppedBox old` in the event trace), and the stored registration
afterwards points only to the new box. -/
theorem C6_replacement_releases_old_after_install (st : AudioUnitState)
    (old newBox : Nat) (fmt : StreamFormat) (does_match : StreamFormat → Bool)
    (hold : st.maybe_callback = some old) (hmatch : does_match fmt = true) :
    (set_render_callback st (.ok fmt) does_match newBox (.ok ())).result = .ok () ∧
    (set_render_callback st (.ok fmt) does_match newBox (.ok ())).state.maybe_callback =
      some newBox ∧
    (set_render_callback st (.ok fmt) does_match newBox (.ok ())).events =
      [Event.createdBox newBox, Event.setProperty newBox true, Event.droppedBox old] ∧
    ((set_render_callback st (.ok fmt) does_match newBox (.ok ())).events.count
      (Event.droppedBox old)) = 1 := by
  have hev : (set_render_callback st (.ok fmt) does_match newBox (.ok ())).events =
      [Event.createdBox newBox, Event.setProperty newBox true, Event.droppedBox old] := by
    simp [set_render_callback, hmatch, free_render_callback, hold]
  refine ⟨by simp [set_render_callback, hmatch], by simp [set_render_callback, hmatch],
    hev, ?_⟩
  rw [hev]
  simp [List.count_cons]

/-- Witness for C6: replacing registration 7 by box 9 under a matching
format emits create-install-drop in that order and stores box 9. -/
theorem C6_replacement_releases_old_after_install_witness :
    (set_render_callback ⟨some 7⟩ (.ok ⟨0⟩) (fun _ => true) 9 (.ok ())).events =
      [Event.createdBox 9, Event.setProperty 9 true, Event.droppedBox 7] ∧
    (set_render_callback ⟨some 7⟩ (.ok ⟨0⟩) (fun _ => true) 9
      (.ok ())).state.maybe_callback = some 9 :=
  ⟨(C6_replacement_releases_old_after_install ⟨some 7⟩ 7 9 ⟨0⟩ (fun _ => true)
      rfl rfl).2.2.1,
   (C6_replacement_releases_old_after_install ⟨some 7⟩ 7 9 ⟨0⟩ (fun _ => true)
      rfl rfl).2.1⟩

/-- C8: when the requested buffer variant's format-match predicate rejects
the stream format queried from the engine, `set_render_callback` returns
the format-mismatch error and mutates nothing: the prior registration is
untouched and no box is created, installed or dropped (empty event trace). -/
theorem C8_format_mismatch_no_state_change (st : AudioUnitState) (fmt : StreamFormat)
    (does_match : StreamFormat → Bool) (newBox : Nat) (spr : Except Error Unit)
    (h : does_match fmt = false) :
    set_render_callback st (.ok fmt) does_match newBox spr =
      { result := .error .RenderCallbackBufferFormatDoesNotMatchAudioUnitStreamFormat,
        state := st, events := [] } := by
  simp [set_render_callback, h]

/-- Witness for C8: a rejecting predicate on an unregistered instance
yields the mismatch error, the same state and no events. -/
theorem C8_format_mismatch_no_state_change_witness :
    set_render_callback ⟨none⟩ (.ok ⟨0⟩) (fun _ => false) 9 (.ok ()) =
      { result := .error .RenderCallbackBufferFormatDoesNotMatchAudioUnitStreamFormat,
        state := ⟨none⟩, events := [] } :=
  C8_format_mismatch_no_state_change ⟨none⟩ ⟨0⟩ (fun _ => false) 9 (.ok ()) rfl

/-- C9: `free_render_callback` is idempotent — on a registered instance it
drops the stored box (exactly that one event) and clears the registration;
on an unregistered instance, including immediately after a previous call,
it is a no-op with no drop event. -/
theorem C9_free_render_callback_idempotent (st : AudioUnitState) :
    (free_render_callback st).1.maybe_callback = none ∧
    free_render_callback (free_render_callback st).1 = ((free_render_callback st).1, []) ∧
    (∀ cb, st.maybe_callback = some cb →
      (free_render_callback st).2 = [Event.droppedBox cb]) ∧
    (st.maybe_callback = none → free_render_callback st = (st, [])) := by
  obtain ⟨mc⟩ := st
  cases mc <;> simp [free_render_callback]

/-- Witness for C9: freeing box 3 drops it once and clears the slot, and a
second free is a no-op with no events. -/
theorem C9_free_render_callback_idempotent_witness :
    (free_render_callback ⟨some 3⟩).1.maybe_callback = none ∧
    (free_render_callback ⟨some 3⟩).2 = [Event.droppedBox 3] ∧
    free_render_callback (free_render_callback ⟨some 3⟩).1 =
      ((free_render_callback ⟨some 3⟩).1, []) :=
  ⟨(C9_free_render_callback_idempotent ⟨some 3⟩).1,
   (C9_free_render_callback_idempotent ⟨some 3⟩).2.2.1 3 rfl,
   (C9_free_render_callback_idempotent ⟨some 3⟩).2.1⟩

end RenderCallback
